import Mathlib

/-!
Shallow embedding of the metadata-extraction and series-matching core of
`bids.py` (functions `parse_from_x_protocol`, `get_dicomfield` with its
process-wide memo pair `_DICOMDICT_MEMO` / `_DICOMFILE_MEMO`, and
`exist_series`).

Python values that flow through these functions are modelled by `PyVal`;
the distinction between a *bound* local variable and an *unbound* one is
modelled by `Binding`, because `get_dicomfield`'s `except IOError` arm
leaves its local `value` unassigned.  File contents are modelled by
`FileModel`: the outcome of `pydicom.dcmread`, the raw byte lines of the
file (absent when opening the file raises `IOError`), and the result of
the Siemens sniff `is_dicomfile_siemens` (an excluded collaborator,
abstracted to a boolean).  Warnings are counted, not rendered.
-/

namespace Bids

/-- Python runtime value as it appears in this core: the `None` object, an
`int`, a `str`, or a pydicom `MultiValue` of element strings (standing for
any non-int, non-str value; its `str()` rendering is abstracted by
`pyStr`). -/
inductive PyVal where
  | none
  | int (n : Int)
  | str (s : String)
  | multi (elems : List String)
deriving DecidableEq, Repr

/-- Exceptions relevant to `get_dicomfield`: `IOError` (and its subclasses)
raised while opening or reading a file, any other exception raised while
parsing the dataset (for example pydicom's `InvalidDicomError`), and
`UnboundLocalError`, raised by Python when a local variable is read before
assignment. -/
inductive PyErr where
  | ioError
  | parseError
  | unboundLocal
deriving DecidableEq, Repr

/-- Python `str()` of a `PyVal`.  `str(None)` is the four-character string
`"None"`; a `MultiValue`'s element rendering is abstracted (only the fact
that it is a string matters to the claims). -/
def pyStr : PyVal → String
  | PyVal.none => "None"
  | PyVal.int n => toString n
  | PyVal.str s => s
  | PyVal.multi es => "[" ++ String.intercalate ", " es ++ "]"

/-- A Python local variable that may not have been assigned yet. -/
inductive Binding where
  | unbound
  | bound (v : PyVal)
deriving DecidableEq, Repr

/-- The structured dictionary `pydicom.dcmread` returns, as a keyword/value
association (a Python mapping, so keys are unique). -/
abbrev Dicomdict := List (String × PyVal)

/-- Behaviour of `pydicom.Dataset.get(tagname)`: like `dict.get`, it returns
the default `None` for a keyword that is not in the dataset — missing
string keys are reported by an `AttributeError` that `get` catches and
converts into the default, never by an exception escaping to the caller. -/
def dictGet (d : Dicomdict) (tagname : String) : PyVal :=
  (List.lookup tagname d).getD PyVal.none

/-- Model of one file on disk, keyed by its path in an environment:
`dcmread` is the outcome of `pydicom.dcmread` on it, `lines` its raw byte
lines (each including its trailing newline, as Python binary-file iteration
yields them; `Option.none` when opening the file raises `IOError`), and
`siemens` the result of the excluded collaborator `is_dicomfile_siemens`. -/
structure FileModel where
  dcmread : Except PyErr Dicomdict
  lines : Option (List String)
  siemens : Bool

/-- The process-wide memo pair of `get_dicomfield`:
`dict` is `_DICOMDICT_MEMO` and `file` is `_DICOMFILE_MEMO`, both `None`
at module load. -/
structure Cache where
  dict : Option Dicomdict
  file : Option String
deriving DecidableEq, Repr

/-- Semantics of `re.match` for the compiled pattern
`^<pattern>\t = \t(.*)\n` against one line, with the field name taken
literally (the source interpolates it unescaped; names with regex
metacharacters are outside this model, as the spec notes).  `re.match`
matches a prefix of the line: the line must start with
`pattern ++ "\t = \t"`, the greedy `(.*)` cannot cross a newline, and the
final `\n` must be present; the capture is everything between the
separator and the first newline after it. -/
def protoLineMatch (pattern line : String) : Option String :=
  let pre := (pattern ++ "\t = \t").data
  if pre.isPrefixOf line.data then
    let rest := line.data.drop pre.length
    if rest.contains '\n' then
      some (String.mk (rest.takeWhile fun c => c != '\n'))
    else Option.none
  else Option.none

/-- The `for line in openfile` loop of `parse_from_x_protocol`: first
matching line wins, file scanned top to bottom. -/
def scanLines (pattern : String) : List String → Option String
  | [] => Option.none
  | l :: ls =>
    match protoLineMatch pattern l with
    | some v => some v
    | Option.none => scanLines pattern ls

/-- Embedding of `parse_from_x_protocol(pattern, dicomfile)`.  Returns the
function's outcome (the captured group decoded as text, `None` when no
line matches, or an uncaught `IOError` when the file cannot be opened —
`is_dicomfile_siemens` reads the file before anything else) together with
the number of warnings it emitted (one when the file does not look like a
Siemens DICOM, one more when the pattern is not found). -/
def parse_from_x_protocol (pattern : String) (f : FileModel) :
    Except PyErr (Option String) × Nat :=
  match f.lines with
  | Option.none => (Except.error PyErr.ioError, 0)
  | some ls =>
    let w := if f.siemens then 0 else 1
    match scanLines pattern ls with
    | some v => (Except.ok (some v), w)
    | Option.none => (Except.ok Option.none, w + 1)

/-- Result of one `get_dicomfield` call: the value returned to the caller
(or the exception that escaped), the final state of the memo pair, the
number of `pydicom.dcmread` invocations, and the number of warnings. -/
structure RunResult where
  ret : Except PyErr PyVal
  cache : Cache
  parses : Nat
  warns : Nat

/-- The fallback arm of `get_dicomfield`: `value = parse_from_x_protocol(...)`
wrapped in `try/except Exception`, which on any exception sets `value = None`
and warns once more.  The memo pair is not touched here. -/
def fallbackStep (env : String → FileModel) (tagname dicomfile : String)
    (c : Cache) (parses : Nat) : Binding × Cache × Nat × Nat :=
  match parse_from_x_protocol tagname (env dicomfile) with
  | (Except.ok r, w) =>
    (Binding.bound (match r with
      | some s => PyVal.str s
      | Option.none => PyVal.none), c, parses, w)
  | (Except.error _, w) => (Binding.bound PyVal.none, c, parses, w + 1)

/-- The `try/except` body of `get_dicomfield`: produces the binding of the
local `value`, the new memo pair, the `dcmread` count and the warning
count.  When `dicomfile` equals `_DICOMFILE_MEMO` the memoised dictionary
is used (if the memo dictionary were still `None`, `None.get` would raise
`AttributeError`, landing in the `except Exception` fallback); otherwise
`dcmread` runs and on success both memo globals are overwritten.  An
`IOError` from `dcmread` is caught by the `except IOError` arm, which only
warns — leaving `value` unbound and the memo pair unchanged.  Any other
`dcmread` exception lands in the fallback arm. -/
def runStep (env : String → FileModel) (tagname dicomfile : String)
    (c : Cache) : Binding × Cache × Nat × Nat :=
  if c.file = some dicomfile then
    match c.dict with
    | some d => (Binding.bound (dictGet d tagname), c, 0, 0)
    | Option.none => fallbackStep env tagname dicomfile c 0
  else
    match (env dicomfile).dcmread with
    | Except.ok d =>
      (Binding.bound (dictGet d tagname), ⟨some d, some dicomfile⟩, 1, 0)
    | Except.error PyErr.ioError => (Binding.unbound, c, 1, 1)
    | Except.error _ => fallbackStep env tagname dicomfile c 1

/-- The trailing cast of `get_dicomfield` (`isinstance` chain): an `int`
stays an `int`, anything that is not a `str` is passed through `str()`,
a `str` stays itself.  Reading an unbound local raises
`UnboundLocalError`. -/
def castValue : Binding → Except PyErr PyVal
  | Binding.unbound => Except.error PyErr.unboundLocal
  | Binding.bound (PyVal.int n) => Except.ok (PyVal.int n)
  | Binding.bound (PyVal.str s) => Except.ok (PyVal.str s)
  | Binding.bound v => Except.ok (PyVal.str (pyStr v))

/-- Embedding of `get_dicomfield(tagname, dicomfile)` as a function of the
file environment and the current memo pair. -/
def get_dicomfield (env : String → FileModel) (tagname dicomfile : String)
    (c : Cache) : RunResult :=
  let s := runStep env tagname dicomfile c
  ⟨castValue s.1, s.2.1, s.2.2.1, s.2.2.2⟩

/-- A series record as built by the driver: a dictionary holding the
`attributes` sub-dictionary plus the remaining (bids-label) keys.  Python
dictionaries have unique keys; association lists with duplicate keys do
not correspond to a source record. -/
structure Series where
  attributes : List (String × PyVal)
  labels : List (String × PyVal)
deriving DecidableEq, Repr

/-- The per-item body of `exist_series`'s outer loop: `match` starts as
`any(series['attributes'][key] is not None ...)`, then every attribute of
the candidate is compared against the item's attribute of the same name
(a missing name raises `KeyError`, caught and turned into `match = False`),
and, only when `matchbidslabels` is set, every label key of the candidate
is compared likewise.  The early `break` only exits sooner; the resulting
boolean is this conjunction. -/
def matchItem (series item : Series) (matchbidslabels : Bool) : Bool :=
  (series.attributes.any fun kv => !(kv.2 == PyVal.none))
    && (series.attributes.all fun kv =>
      match List.lookup kv.1 item.attributes with
      | some v => kv.2 == v
      | Option.none => false)
    && (!matchbidslabels
      || series.labels.all fun kv =>
        match List.lookup kv.1 item.labels with
        | some v => kv.2 == v
        | Option.none => false)

/-- Embedding of `exist_series(series, serieslist, matchbidslabels)`:
first item of `serieslist` whose comparison leaves `match` true wins. -/
def exist_series (series : Series) (serieslist : List Series)
    (matchbidslabels : Bool := true) : Bool :=
  serieslist.any fun item => matchItem series item matchbidslabels

/-- Instrumented form of `exist_series` that also returns the series list
as the loop leaves it: the loop only reads `serieslist` (indexing and
key lookups), so each item is passed through unchanged. -/
def exist_series_run (series : Series) : List Series → Bool → Bool × List Series
  | [], _ => (false, [])
  | item :: rest, m =>
    if matchItem series item m then (true, item :: rest)
    else
      let r := exist_series_run series rest m
      (r.1, item :: r.2)

/-! Concrete inputs used by the closed theorems and the witnesses. -/

/-- The module-load state of the memo pair: both globals `None`. -/
def cache0 : Cache := ⟨Option.none, Option.none⟩

/-- A structured dictionary holding only `EchoTime`. -/
def dEcho : Dicomdict := [("EchoTime", PyVal.str "10")]

/-- Byte lines of a vendor dump containing `SliceThickness` in the exact
`name\t = \tvalue\n` form. -/
def linesST : List String := ["SliceThickness\t = \t2.5\n"]

/-- A readable Siemens DICOM file whose dataset lacks `SliceThickness`
while its vendor dump contains it. -/
def fileST : FileModel := ⟨Except.ok dEcho, some linesST, true⟩

/-- Environment mapping every path to `fileST`. -/
def envST : String → FileModel := fun _ => fileST

/-- A file whose read raises `IOError`. -/
def fileIO : FileModel := ⟨Except.error PyErr.ioError, Option.none, false⟩

/-- Environment mapping every path to `fileIO`. -/
def envIO : String → FileModel := fun _ => fileIO

/-- A file that `dcmread` rejects (not parseable as a DICOM dataset) whose
byte lines contain a junk line followed by two `SliceThickness` lines. -/
def fileX : FileModel :=
  ⟨Except.error PyErr.parseError,
   some ["junk\n", "SliceThickness\t = \t2.5\n", "SliceThickness\t = \t9\n"], true⟩

/-- A readable file keyed as `a.dcm` in `envAB`. -/
def fmA : FileModel := ⟨Except.ok dEcho, some [], true⟩

/-- A readable file keyed as every other path in `envAB`. -/
def fmB : FileModel := ⟨Except.ok [("Rows", PyVal.int 64)], some [], true⟩

/-- Environment with two distinct files, for the cache-eviction witness. -/
def envAB : String → FileModel := fun p => if p = "a.dcm" then fmA else fmB

/-- Candidate of the label-matching scenario: attributes `{a:1, b:"x"}`,
modality `func`. -/
def sFunc : Series :=
  ⟨[("a", PyVal.int 1), ("b", PyVal.str "x")], [("modality", PyVal.str "func")]⟩

/-- Same attributes as `sFunc` but modality `anat`. -/
def sAnat : Series :=
  ⟨[("a", PyVal.int 1), ("b", PyVal.str "x")], [("modality", PyVal.str "anat")]⟩

/-- A record whose attribute values are all the absence marker `None`. -/
def sEmpty : Series := ⟨[("a", PyVal.none), ("b", PyVal.none)], []⟩

/-! Helper lemmas shared by the claim theorems. -/

/-- An all-`None` attribute set makes the initial `any(... is not None ...)`
guard false, so the per-item comparison of `exist_series` is false. -/
theorem matchItem_all_absent (s item : Series) (m : Bool)
    (h : ∀ kv ∈ s.attributes, kv.2 = PyVal.none) :
    matchItem s item m = false := by
  have hany : (s.attributes.any fun kv => !(kv.2 == PyVal.none)) = false := by
    rw [List.any_eq_false]
    intro kv hkv
    rw [h kv hkv]
    simp
  unfold matchItem
  rw [hany]
  simp

/-- Looking a key of an association list with distinct keys up in that same
list returns that key's own value. -/
theorem lookup_self_of_nodup :
    ∀ (l : List (String × PyVal)), (l.map Prod.fst).Nodup →
      ∀ kv ∈ l, List.lookup kv.1 l = some kv.2 := by
  intro l
  induction l with
  | nil => intro _ kv hkv; cases hkv
  | cons a tl ih =>
    obtain ⟨k, v⟩ := a
    intro hnd kv hkv
    rw [List.map_cons, List.nodup_cons] at hnd
    rcases List.mem_cons.mp hkv with he | hm
    · subst he
      simp [List.lookup]
    · have hne : (kv.1 == k) = false := by
        refine beq_eq_false_iff_ne.mpr ?_
        intro heq
        have hmem : kv.1 ∈ tl.map Prod.fst := List.mem_map_of_mem Prod.fst hm
        rw [heq] at hmem
        exact hnd.1 hmem
      rw [List.lookup, hne]
      exact ih hnd.2 kv hm

/-- The instrumented matcher hands the series list back unchanged. -/
theorem exist_series_run_snd (s : Series) (m : Bool) :
    ∀ l : List Series, (exist_series_run s l m).2 = l := by
  intro l
  induction l with
  | nil => rfl
  | cons a tl ih =>
    by_cases hm : matchItem s a m = true
    · simp [exist_series_run, hm]
    · simp [exist_series_run, hm, ih]

/-- The instrumented matcher computes the same boolean as `exist_series`. -/
theorem exist_series_run_fst (s : Series) (m : Bool) :
    ∀ l : List Series, (exist_series_run s l m).1 = exist_series s l m := by
  intro l
  induction l with
  | nil => rfl
  | cons a tl ih =>
    by_cases hm : matchItem s a m = true
    · simp [exist_series_run, exist_series, hm]
    · simp [exist_series_run, exist_series, hm]
      simpa [exist_series] using ih

/-! Claim theorems. -/

/-- C4: a candidate `SeriesRecord` whose attribute set holds only the
absence marker `None` is never reported by `exist_series` as matching,
whatever the previous list (even one holding an identical all-absent
record) and whatever the label-matching flag. -/
theorem exist_series_all_absent_no_match
    (series : Series) (serieslist : List Series) (m : Bool)
    (h : ∀ kv ∈ series.attributes, kv.2 = PyVal.none) :
    exist_series series serieslist m = false := by
  unfold exist_series
  rw [List.any_eq_false]
  intro item _
  rw [matchItem_all_absent series item m h]
  simp

/-- Witness for C4 at the spec's scenario `{a: absent, b: absent}` against
a previous list holding an identical record. -/
theorem exist_series_all_absent_no_match_witness :
    exist_series sEmpty [sEmpty] true = false :=
  exist_series_all_absent_no_match sEmpty [sEmpty] true (by decide)

/-- C6: for a candidate and an existing record with identical attribute
sets (with distinct keys and at least one non-absent value) whose single
label field differs, `exist_series` returns false when `matchbidslabels`
is true and true when it is false — label fields are compared only when
the flag is set. -/
theorem exist_series_bidslabels_toggle
    (attrs : List (String × PyVal)) (hnd : (attrs.map Prod.fst).Nodup)
    (hne : (attrs.any fun kv => !(kv.2 == PyVal.none)) = true)
    (lbl : String) (v1 v2 : PyVal) (hv : v1 ≠ v2) :
    exist_series ⟨attrs, [(lbl, v1)]⟩ [⟨attrs, [(lbl, v2)]⟩] true = false
    ∧ exist_series ⟨attrs, [(lbl, v1)]⟩ [⟨attrs, [(lbl, v2)]⟩] false = true := by
  have hattrs : (attrs.all fun kv =>
      match List.lookup kv.1 attrs with
      | some v => kv.2 == v
      | Option.none => false) = true := by
    rw [List.all_eq_true]
    intro kv hkv
    rw [lookup_self_of_nodup attrs hnd kv hkv]
    simp
  have hbne : (v1 == v2) = false := beq_eq_false_iff_ne.mpr hv
  constructor
  · simp [exist_series, matchItem, hne, hattrs, List.lookup, hbne]
  · simp [exist_series, matchItem, hne, hattrs]

/-- Witness for C6 at the spec's scenario: attributes `{a:1, b:"x"}`,
modality `anat` against modality `func`. -/
theorem exist_series_bidslabels_toggle_witness :
    exist_series sAnat [sFunc] true = false
    ∧ exist_series sAnat [sFunc] false = true :=
  exist_series_bidslabels_toggle
    [("a", PyVal.int 1), ("b", PyVal.str "x")] (by decide) (by decide)
    "modality" (PyVal.str "anat") (PyVal.str "func") (by decide)

/-- C9: `exist_series` is deterministic and mutation-free: the instrumented
run hands the previous list back unchanged, a second run on the list the
first run left behind yields the same boolean, and that boolean is the one
`exist_series` computes. -/
theorem exist_series_idempotent_no_mutation
    (s : Series) (l : List Series) (m : Bool) :
    (exist_series_run s l m).2 = l
    ∧ (exist_series_run s (exist_series_run s l m).2 m).1
        = (exist_series_run s l m).1
    ∧ (exist_series_run s l m).1 = exist_series s l m := by
  refine ⟨exist_series_run_snd s m l, ?_, exist_series_run_fst s m l⟩
  rw [exist_series_run_snd s m l]

/-! Resolver helper lemmas. -/

/-- Whatever the trailing cast returns normally is an `int` or a `str`. -/
theorem castValue_ok_shape (b : Binding) (v : PyVal)
    (h : castValue b = Except.ok v) :
    (∃ n, v = PyVal.int n) ∨ (∃ s, v = PyVal.str s) := by
  cases b with
  | unbound => simp [castValue] at h
  | bound pv =>
    cases pv with
    | none =>
      simp [castValue, pyStr] at h
      exact Or.inr ⟨"None", h.symm⟩
    | int n =>
      simp [castValue] at h
      exact Or.inl ⟨n, h.symm⟩
    | str s =>
      simp [castValue] at h
      exact Or.inr ⟨s, h.symm⟩
    | multi es =>
      simp [castValue] at h
      exact Or.inr ⟨pyStr (PyVal.multi es), h.symm⟩

/-- The fallback arm never touches the memo pair and never calls `dcmread`
beyond what already happened. -/
theorem fallbackStep_frame (env : String → FileModel) (tag f : String)
    (c : Cache) (p : Nat) :
    (fallbackStep env tag f c p).2.1 = c
    ∧ (fallbackStep env tag f c p).2.2.1 = p := by
  unfold fallbackStep
  rcases parse_from_x_protocol tag (env f) with ⟨e, w⟩
  cases e with
  | ok r => exact ⟨rfl, rfl⟩
  | error x => exact ⟨rfl, rfl⟩

/-- A call whose file equals `_DICOMFILE_MEMO` leaves the memo pair as it
was and never calls `dcmread`. -/
theorem get_dicomfield_memo_hit (env : String → FileModel)
    (tag f : String) (c : Cache) (hc : c.file = some f) :
    (get_dicomfield env tag f c).cache = c
    ∧ (get_dicomfield env tag f c).parses = 0 := by
  unfold get_dicomfield runStep
  rcases hdict : c.dict with _ | d0
  · simp only [hc, if_pos, hdict]
    exact fallbackStep_frame env tag f c 0
  · simp [hc, hdict]

/-- A call whose file differs from `_DICOMFILE_MEMO` and whose `dcmread`
succeeds overwrites both memo globals and calls `dcmread` exactly once. -/
theorem get_dicomfield_memo_miss_ok (env : String → FileModel)
    (tag f : String) (c : Cache) (d : Dicomdict)
    (hc : ¬ c.file = some f) (hd : (env f).dcmread = Except.ok d) :
    (get_dicomfield env tag f c).cache = ⟨some d, some f⟩
    ∧ (get_dicomfield env tag f c).parses = 1 := by
  unfold get_dicomfield runStep
  simp [hc, hd]

/-- For a readable DICOM dataset that lacks the requested keyword, the
structured lookup hands back the default `None` without raising, the
fallback arm therefore never runs, and the trailing cast stringifies the
`None` into the literal text `"None"`, with no warning emitted. -/
theorem ret_none_string_of_absent (env : String → FileModel)
    (tag f : String) (c : Cache) (d : Dicomdict)
    (hc : ¬ c.file = some f) (hd : (env f).dcmread = Except.ok d)
    (habs : List.lookup tag d = Option.none) :
    (get_dicomfield env tag f c).ret = Except.ok (PyVal.str "None")
    ∧ (get_dicomfield env tag f c).warns = 0 := by
  unfold get_dicomfield runStep
  simp [hc, hd, dictGet, habs, castValue, pyStr]

/-- The line scan returns the capture of the first matching line. -/
theorem scanLines_of_first (p : String) (pre : List String) (l : String)
    (post : List String) (v : String)
    (hpre : ∀ x ∈ pre, protoLineMatch p x = Option.none)
    (hl : protoLineMatch p l = some v) :
    scanLines p (pre ++ l :: post) = some v := by
  induction pre with
  | nil => simp [scanLines, hl]
  | cons a tl ih =>
    have ha := hpre a (List.mem_cons_self a tl)
    simp only [List.cons_append, scanLines, ha]
    exact ih fun x hx => hpre x (List.mem_cons_of_mem a hx)

/-- The line scan returns nothing when no line matches. -/
theorem scanLines_of_all_none (p : String) (ls : List String)
    (h : ∀ x ∈ ls, protoLineMatch p x = Option.none) :
    scanLines p ls = Option.none := by
  induction ls with
  | nil => rfl
  | cons a tl ih =>
    simp only [scanLines, h a (List.mem_cons_self a tl)]
    exact ih fun x hx => h x (List.mem_cons_of_mem a hx)

/-! Resolver claim theorems. -/

/-- C1 (failing run): a readable Siemens DICOM file whose dataset lacks
`SliceThickness` while its byte lines contain
`"SliceThickness\t = \t2.5\n"` in the exact pattern form — the pattern
extraction would capture `"2.5"`, yet `get_dicomfield` returns the string
`"None"`: the structured lookup reports absence by returning `None`
instead of raising, so the fallback never runs. -/
theorem get_dicomfield_missing_field_skips_fallback :
    List.lookup "SliceThickness" dEcho = Option.none
    ∧ scanLines "SliceThickness" linesST = some "2.5"
    ∧ (get_dicomfield envST "SliceThickness" "f.dcm" cache0).ret
        = Except.ok (PyVal.str "None") :=
  ⟨rfl, rfl, rfl⟩

/-- C2 (counterexample): at a concrete input where the field is absent
from both the structured dictionary and the vendor dump, `get_dicomfield`
returns the plain string `"None"` — not an absent marker — and emits zero
warnings, not exactly one. -/
theorem get_dicomfield_absent_both_cex :
    List.lookup "RepetitionTime" dEcho = Option.none
    ∧ scanLines "RepetitionTime" linesST = Option.none
    ∧ (get_dicomfield envST "RepetitionTime" "f.dcm" cache0).ret
        = Except.ok (PyVal.str "None")
    ∧ (get_dicomfield envST "RepetitionTime" "f.dcm" cache0).warns = 0 :=
  ⟨rfl, rfl, rfl, rfl⟩

/-- C2 (amended): for every field absent from both the structured
dictionary and the vendor text dump of a file that parses as a DICOM
dataset, `get_dicomfield` returns the literal string `"None"` and emits
no warning. -/
theorem get_dicomfield_absent_both_behavior (env : String → FileModel)
    (tag f : String) (c : Cache) (d : Dicomdict) (ls : List String)
    (hc : ¬ c.file = some f) (hd : (env f).dcmread = Except.ok d)
    (habs : List.lookup tag d = Option.none)
    (_hls : (env f).lines = some ls)
    (_hdump : scanLines tag ls = Option.none) :
    (get_dicomfield env tag f c).ret = Except.ok (PyVal.str "None")
    ∧ (get_dicomfield env tag f c).warns = 0 :=
  ret_none_string_of_absent env tag f c d hc hd habs

/-- Witness for the amended C2 at the concrete counterexample input. -/
theorem get_dicomfield_absent_both_behavior_witness :
    (get_dicomfield envST "RepetitionTime" "f.dcm" cache0).ret
        = Except.ok (PyVal.str "None")
    ∧ (get_dicomfield envST "RepetitionTime" "f.dcm" cache0).warns = 0 :=
  get_dicomfield_absent_both_behavior envST "RepetitionTime" "f.dcm" cache0
    dEcho linesST (by simp [cache0]) rfl rfl rfl rfl

/-- C3 (failing run): when reading the target file raises `IOError`, the
`except IOError` arm only warns, the local `value` stays unassigned, and
the trailing `isinstance` test raises `UnboundLocalError` to the caller
instead of returning absent. -/
theorem get_dicomfield_ioerror_raises_unbound :
    (get_dicomfield envIO "EchoTime" "bad.dcm" cache0).ret
        = Except.error PyErr.unboundLocal
    ∧ (get_dicomfield envIO "EchoTime" "bad.dcm" cache0).warns = 1 :=
  ⟨rfl, rfl⟩

/-- C5: two consecutive `get_dicomfield` calls against the same file parse
the structured dictionary at most once — the second call reuses the memoised
dictionary and performs zero parses — while a call against a different file
replaces the single memo entry with that file and its dictionary. -/
theorem get_dicomfield_cache_policy (env : String → FileModel)
    (c : Cache) (f g tag1 tag2 tag3 : String) (d dg : Dicomdict)
    (hd : (env f).dcmread = Except.ok d)
    (hg : g ≠ f) (hdg : (env g).dcmread = Except.ok dg) :
    (get_dicomfield env tag1 f c).parses ≤ 1
    ∧ (get_dicomfield env tag2 f (get_dicomfield env tag1 f c).cache).parses
        = 0
    ∧ (get_dicomfield env tag3 g (get_dicomfield env tag1 f c).cache).cache
        = ⟨some dg, some g⟩ := by
  have hfile : (get_dicomfield env tag1 f c).cache.file = some f := by
    by_cases hc : c.file = some f
    · rw [(get_dicomfield_memo_hit env tag1 f c hc).1]
      exact hc
    · rw [(get_dicomfield_memo_miss_ok env tag1 f c d hc hd).1]
  have hgfile : ¬ (get_dicomfield env tag1 f c).cache.file = some g := by
    rw [hfile]
    intro h
    exact hg (Option.some_injective String h).symm
  refine ⟨?_, ?_, ?_⟩
  · by_cases hc : c.file = some f
    · rw [(get_dicomfield_memo_hit env tag1 f c hc).2]
      exact Nat.zero_le 1
    · rw [(get_dicomfield_memo_miss_ok env tag1 f c d hc hd).2]
  · exact (get_dicomfield_memo_hit env tag2 f _ hfile).2
  · exact (get_dicomfield_memo_miss_ok env tag3 g _ dg hgfile hdg).1

/-- Witness for C5: first call on `a.dcm` from the empty memo, second call
on `a.dcm`, third call on `b.dcm`, in the two-file environment `envAB`. -/
theorem get_dicomfield_cache_policy_witness :
    (get_dicomfield envAB "EchoTime" "a.dcm" cache0).parses ≤ 1
    ∧ (get_dicomfield envAB "Rows" "a.dcm"
        (get_dicomfield envAB "EchoTime" "a.dcm" cache0).cache).parses = 0
    ∧ (get_dicomfield envAB "Rows" "b.dcm"
        (get_dicomfield envAB "EchoTime" "a.dcm" cache0).cache).cache
        = ⟨some [("Rows", PyVal.int 64)], some "b.dcm"⟩ :=
  get_dicomfield_cache_policy envAB cache0 "a.dcm" "b.dcm"
    "EchoTime" "Rows" "Rows" dEcho [("Rows", PyVal.int 64)]
    rfl (by decide) rfl

/-- C7: when `dcmread` on an uncached file raises `IOError`, the memo pair
is left exactly as it was — the failed file is not recorded and a
previously memoised dictionary survives. -/
theorem get_dicomfield_ioerror_preserves_cache (env : String → FileModel)
    (tag f : String) (c : Cache) (hc : ¬ c.file = some f)
    (hd : (env f).dcmread = Except.error PyErr.ioError) :
    (get_dicomfield env tag f c).cache = c := by
  unfold get_dicomfield runStep
  simp [hc, hd]

/-- Witness for C7: an `IOError` file queried while `fileST`'s dictionary
is memoised under `f.dcm` leaves that memo entry intact. -/
theorem get_dicomfield_ioerror_preserves_cache_witness :
    (get_dicomfield envIO "EchoTime" "bad.dcm" ⟨some dEcho, some "f.dcm"⟩).cache
        = ⟨some dEcho, some "f.dcm"⟩ :=
  get_dicomfield_ioerror_preserves_cache envIO "EchoTime" "bad.dcm"
    ⟨some dEcho, some "f.dcm"⟩ (by simp) rfl

/-- C8: `parse_from_x_protocol` scans the byte lines top to bottom; the
first line matching `^<field>\t = \t(.*)\n` wins and its capture is the
value returned as text, while a file in which no line matches yields no
value and one extra warning. -/
theorem parse_from_x_protocol_first_match (p : String) (f : FileModel)
    (ls : List String) (hl : f.lines = some ls) :
    (∀ pre l post v, ls = pre ++ l :: post →
        (∀ x ∈ pre, protoLineMatch p x = Option.none) →
        protoLineMatch p l = some v →
        parse_from_x_protocol p f
          = (Except.ok (some v), if f.siemens then 0 else 1))
    ∧ ((∀ x ∈ ls, protoLineMatch p x = Option.none) →
        parse_from_x_protocol p f
          = (Except.ok Option.none, (if f.siemens then 0 else 1) + 1)) := by
  constructor
  · intro pre l post v hsplit hpre hml
    subst hsplit
    simp [parse_from_x_protocol, hl, scanLines_of_first p pre l post v hpre hml]
  · intro hall
    simp [parse_from_x_protocol, hl, scanLines_of_all_none p ls hall]

/-- Witness for C8 on `fileX`: the junk line is skipped, the first of the
two `SliceThickness` lines wins, and its capture `"2.5"` is returned. -/
theorem parse_from_x_protocol_first_match_witness :
    parse_from_x_protocol "SliceThickness" fileX = (Except.ok (some "2.5"), 0) :=
  (parse_from_x_protocol_first_match "SliceThickness" fileX
      ["junk\n", "SliceThickness\t = \t2.5\n", "SliceThickness\t = \t9\n"] rfl).1
    ["junk\n"] "SliceThickness\t = \t2.5\n" ["SliceThickness\t = \t9\n"] "2.5"
    rfl (by decide) (by decide)

/-- C10: whenever `get_dicomfield` returns normally its value is an `int`
or a `str` and never the absence marker `None`; in particular a readable
file whose dataset lacks the field yields the literal string `"None"`. -/
theorem get_dicomfield_returns_int_or_str (env : String → FileModel)
    (tag f : String) (c : Cache) :
    (∀ v, (get_dicomfield env tag f c).ret = Except.ok v →
        ((∃ n, v = PyVal.int n) ∨ (∃ s, v = PyVal.str s)) ∧ v ≠ PyVal.none)
    ∧ (∀ d, ¬ c.file = some f → (env f).dcmread = Except.ok d →
        List.lookup tag d = Option.none →
        (get_dicomfield env tag f c).ret = Except.ok (PyVal.str "None")) := by
  constructor
  · intro v h
    have hshape := castValue_ok_shape (runStep env tag f c).1 v h
    refine ⟨hshape, ?_⟩
    rcases hshape with ⟨n, hn⟩ | ⟨s, hs⟩
    · rw [hn]; intro he; cases he
    · rw [hs]; intro he; cases he
  · intro d hc hd habs
    exact (ret_none_string_of_absent env tag f c d hc hd habs).1

/-- Witness for C10 at the concrete absent-field run: the returned value is
the string `"None"`. -/
theorem get_dicomfield_returns_int_or_str_witness :
    ((∃ n, PyVal.str "None" = PyVal.int n)
      ∨ (∃ s, PyVal.str "None" = PyVal.str s))
    ∧ (get_dicomfield envST "RepetitionTime" "f.dcm" cache0).ret
        = Except.ok (PyVal.str "None") :=
  ⟨((get_dicomfield_returns_int_or_str envST "RepetitionTime" "f.dcm"
      cache0).1 (PyVal.str "None") rfl).1,
   (get_dicomfield_returns_int_or_str envST "RepetitionTime" "f.dcm"
      cache0).2 dEcho (by simp [cache0]) rfl rfl⟩

end Bids
